import Mathlib

/-!
Shallow embedding of the packet-sniffer telemetry core (`src/main.rs`):
the threat classifier (`detect_threat_level`, `is_private_ip`), the
stats-update block of `capture_packets_with_stats` (the aggregator's
`Ingest`), the capture filter (`should_capture_packet`), the CSV export
(`export_to_csv`) and the bandwidth-sparkline data selection
(`display_bandwidth_graph`).  Machine integers are modelled as `Nat`
(the Rust counters are `usize`/`u16`, additions only, no overflow at
the modelled scales); the `f64` bandwidth figures are modelled as `ℚ`
(exact division; the sampling and windowing claims do not depend on
`f64` rounding).  Wall-clock reads (`Instant::elapsed`) are modelled as
an explicit per-ingest input.
-/

/-- `ThreatLevel` from `main.rs` : ordered enumeration,
`Safe < Low < Medium < High < Critical` (Rust `derive(PartialOrd)` on
declaration order). -/
inductive ThreatLevel
  | Safe
  | Low
  | Medium
  | High
  | Critical
deriving DecidableEq, Repr

/-- Rank realising the derived order on `ThreatLevel`. -/
def ThreatLevel.rank : ThreatLevel → Nat
  | .Safe => 0
  | .Low => 1
  | .Medium => 2
  | .High => 3
  | .Critical => 4

/-- `if new > cur { new } else { cur }` on threat levels (the update in
the connections table, `main.rs` lines 450-452). -/
def ThreatLevel.tmax (cur new : ThreatLevel) : ThreatLevel :=
  if cur.rank < new.rank then new else cur

/-- Timestamp of a record: a UTC civil date-time
(`chrono::DateTime<Utc>` of the source, an external library type,
modelled to second precision). -/
structure DT where
  year : Nat
  month : Nat
  day : Nat
  hour : Nat
  minute : Nat
  second : Nat
deriving DecidableEq, Repr

/-- Linearisation of a timestamp; for field values below 100 (and years
below 10000) this is the lexicographic civil order. -/
def DT.key (t : DT) : Nat :=
  ((((t.year * 100 + t.month) * 100 + t.day) * 100 + t.hour) * 100 +
      t.minute) * 100 + t.second

/-- `GeoInfo` from `main.rs` (placeholder geolocation data). -/
structure GeoInfo where
  country : Option String
  city : Option String
  latitude : Option ℚ
  longitude : Option ℚ
deriving DecidableEq, Repr

/-- `PacketInfo` from `main.rs`: one decoded packet record. -/
structure PacketInfo where
  timestamp : DT
  packet_number : Nat
  src_mac : String
  dst_mac : String
  src_ip : Option String
  dst_ip : Option String
  protocol : String
  src_port : Option Nat
  dst_port : Option Nat
  packet_size : Nat
  flags : Option String
  payload_size : Nat
  application_protocol : Option String
  description : String
  threat_level : ThreatLevel
  geo_info : Option GeoInfo
deriving DecidableEq, Repr

/-- Character-list prefix test (`leadsWith pat l` holds when `pat` is
an initial segment of `l`). -/
def leadsWith : List Char → List Char → Bool
  | [], _ => true
  | _ :: _, [] => false
  | c :: pt, d :: st => c = d && leadsWith pt st

/-- Rust `str::starts_with` on the underlying character list (Lean's
own `String.startsWith` is not kernel-reducible). -/
def strStartsWith (s pat : String) : Bool := leadsWith pat.data s.data

/-- ASCII lower-casing of one character. -/
def asciiLower (c : Char) : Char :=
  if 65 ≤ c.toNat && c.toNat ≤ 90 then Char.ofNat (c.toNat + 32) else c

/-- Rust `str::to_lowercase` restricted to ASCII, on the underlying
character list. -/
def strToLower (s : String) : String := ⟨s.data.map asciiLower⟩

/-- `is_private_ip` from `main.rs` lines 1048-1055: string-prefix tests. -/
def is_private_ip (ip : String) : Bool :=
  strStartsWith ip "10." ||
  strStartsWith ip "192.168." ||
  strStartsWith ip "172.16." ||
  strStartsWith ip "127." ||
  strStartsWith ip "::1" ||
  strStartsWith ip "fe80::"

/-- Port signal of `detect_threat_level` (`main.rs` lines 1000-1010):
the match on the preferred port. -/
def portRisk (p : Nat) : Nat :=
  if p = 1433 ∨ p = 3389 ∨ p = 5900 ∨ p = 23 ∨ p = 135 ∨ p = 139 ∨ p = 445 then 3
  else if p = 21 ∨ p = 25 ∨ p = 110 ∨ p = 143 ∨ p = 993 ∨ p = 995 then 2
  else if p > 49152 then 1
  else 0

/-- `packet_info.dst_port.or(packet_info.src_port)` feeding the port
signal; absent ports contribute 0 (the `if let` is skipped). -/
def portScore (r : PacketInfo) : Nat :=
  match r.dst_port with
  | some p => portRisk p
  | none =>
    match r.src_port with
    | some p => portRisk p
    | none => 0

/-- Destination-address signal of `detect_threat_level`
(`main.rs` lines 1012-1023): +1 for a non-`is_private_ip` address, and
+2 more for the literal prefixes `10.0.0.` / `169.254.`. -/
def addrScore (r : PacketInfo) : Nat :=
  match r.dst_ip with
  | none => 0
  | some ip =>
    (if is_private_ip ip then 0 else 1) +
    (if strStartsWith ip "10.0.0." || strStartsWith ip "169.254." then 2 else 0)

/-- Size signal of `detect_threat_level` (`main.rs` lines 1025-1028). -/
def sizeScore (r : PacketInfo) : Nat :=
  if r.packet_size > 1500 ∨ r.packet_size < 64 then 1 else 0

/-- Protocol signal of `detect_threat_level` (`main.rs` lines 1030-1036):
ICMP +1, UDP +1 unless the destination port is 53. -/
def protoScore (r : PacketInfo) : Nat :=
  if r.protocol = "ICMP" then 1
  else if r.protocol = "UDP" then (if r.dst_port = some 53 then 0 else 1)
  else 0

/-- The accumulated `risk_score` of `detect_threat_level`: the four
independent additive signals, in source order. -/
def riskScore (r : PacketInfo) : Nat :=
  portScore r + addrScore r + sizeScore r + protoScore r

/-- The final `match risk_score` of `detect_threat_level`
(`main.rs` lines 1039-1045). -/
def levelOfScore (n : Nat) : ThreatLevel :=
  if n ≤ 1 then .Safe
  else if n ≤ 3 then .Low
  else if n ≤ 5 then .Medium
  else if n ≤ 7 then .High
  else .Critical

/-- `detect_threat_level` from `main.rs` lines 995-1046. -/
def detect_threat_level (r : PacketInfo) : ThreatLevel :=
  levelOfScore (riskScore r)

/-- `ConnectionFlow` from `main.rs`. -/
structure ConnectionFlow where
  src_ip : String
  dst_ip : String
  src_port : Option Nat
  dst_port : Option Nat
  protocol : String
  packet_count : Nat
  total_bytes : Nat
  first_seen : DT
  last_seen : DT
  threat_level : ThreatLevel
deriving DecidableEq, Repr

/-- `BandwidthPoint` from `main.rs` (`f64` rates modelled as `ℚ`). -/
structure BandwidthPoint where
  timestamp : DT
  bytes_per_sec : ℚ
  packets_per_sec : ℚ
deriving DecidableEq, Repr

/-- `NetworkStats` from `main.rs`; the `HashMap`s are modelled as
association lists with unique keys (`start_time` is replaced by the
per-ingest elapsed-seconds input). -/
structure NetworkStats where
  total_packets : Nat
  total_bytes : Nat
  protocol_counts : List (String × Nat)
  top_talkers : List (String × Nat)
  bandwidth_history : List BandwidthPoint
  connections : List (String × ConnectionFlow)
  threat_alerts : List (DT × String × ThreatLevel)
  port_activity : List (Nat × Nat)
  packet_sizes : List Nat
  current_connections : Nat
  peak_bandwidth : ℚ
  peak_packets_per_sec : ℚ
deriving DecidableEq, Repr

/-- The empty `NetworkStats` built at capture start (`main.rs` lines
316-330). -/
def initStats : NetworkStats :=
  { total_packets := 0, total_bytes := 0, protocol_counts := [],
    top_talkers := [], bandwidth_history := [], connections := [],
    threat_alerts := [], port_activity := [], packet_sizes := [],
    current_connections := 0, peak_bandwidth := 0,
    peak_packets_per_sec := 0 }

/-- `*map.entry(k).or_insert(0) += 1` on an association list. -/
def bump {α : Type} [DecidableEq α] (k : α) : List (α × Nat) → List (α × Nat)
  | [] => [(k, 1)]
  | (k2, v) :: t => if k2 = k then (k2, v + 1) :: t else (k2, v) :: bump k t

/-- The ring-buffer push used throughout `capture_packets_with_stats`:
`vec.push(x); if vec.len() > cap { vec.remove(0); }`. -/
def pushBounded {α : Type} (cap : Nat) (x : α) (l : List α) : List α :=
  let l2 := l ++ [x]
  if cap < l2.length then l2.drop 1 else l2

/-- The connection key of `main.rs` lines 427-430:
`format!("{}:{}-{}:{}", src_ip, src_port.unwrap_or(0), dst_ip, dst_port.unwrap_or(0))`. -/
def connectionKey (src dst : String) (sp dp : Option Nat) : String :=
  src ++ ":" ++ toString (sp.getD 0) ++ "-" ++ dst ++ ":" ++ toString (dp.getD 0)

/-- The `or_insert` default flow of `main.rs` lines 432-443. -/
def initFlow (src dst : String) (r : PacketInfo) : ConnectionFlow :=
  { src_ip := src, dst_ip := dst, src_port := r.src_port,
    dst_port := r.dst_port, protocol := r.protocol, packet_count := 0,
    total_bytes := 0, first_seen := r.timestamp, last_seen := r.timestamp,
    threat_level := r.threat_level }

/-- The unconditional flow mutation of `main.rs` lines 445-452:
increment `packet_count`, add the record size to `total_bytes`, set
`last_seen` to the record timestamp, and raise `threat_level` to the
record's level when that is strictly higher. -/
def touchFlow (r : PacketInfo) (f : ConnectionFlow) : ConnectionFlow :=
  { f with packet_count := f.packet_count + 1,
           total_bytes := f.total_bytes + r.packet_size,
           last_seen := r.timestamp,
           threat_level := f.threat_level.tmax r.threat_level }

/-- Association-list lookup (modelling `HashMap` access). -/
def alistGet {β : Type} (k : String) : List (String × β) → Option β
  | [] => none
  | (k2, v) :: t => if k2 = k then some v else alistGet k t

/-- `connections.entry(key).or_insert(init)` followed by the mutation:
update the entry in place when the key is present, otherwise insert the
default and mutate it. -/
def upsertConn (src dst : String) (r : PacketInfo) :
    List (String × ConnectionFlow) → List (String × ConnectionFlow)
  | [] => [(connectionKey src dst r.src_port r.dst_port,
            touchFlow r (initFlow src dst r))]
  | (k2, v) :: t =>
    if k2 = connectionKey src dst r.src_port r.dst_port then
      (k2, touchFlow r v) :: t
    else
      (k2, v) :: upsertConn src dst r t

/-- The alert message of `main.rs` lines 412-416. -/
def alertMsg (r : PacketInfo) : String :=
  "Suspicious " ++ r.protocol ++ " traffic from " ++
    (r.src_ip.getD "unknown") ++ " to " ++ (r.dst_ip.getD "unknown")

/-- The connections-table step (`main.rs` lines 426-453): only applied
when both addresses are present. -/
def connStep (r : PacketInfo) (c : List (String × ConnectionFlow)) :
    List (String × ConnectionFlow) :=
  match r.src_ip, r.dst_ip with
  | some a, some b => upsertConn a b r c
  | _, _ => c

/-- One `Ingest`: the stats-update block of `capture_packets_with_stats`
(`main.rs` lines 388-483).  `elapsed` is the value of
`stats.start_time.elapsed().as_secs()` observed during this call; the
bandwidth branch reads the already-incremented totals, exactly as the
source does. -/
def ingest (s : NetworkStats) (r : PacketInfo) (elapsed : Nat) : NetworkStats :=
  let tp := s.total_packets + 1
  let tb := s.total_bytes + r.packet_size
  let conns := connStep r s.connections
  let bps : ℚ := (tb : ℚ) / (elapsed : ℚ)
  let pps : ℚ := (tp : ℚ) / (elapsed : ℚ)
  { total_packets := tp
    total_bytes := tb
    protocol_counts := bump r.protocol s.protocol_counts
    top_talkers :=
      match r.src_ip with
      | some a => bump a s.top_talkers
      | none => s.top_talkers
    bandwidth_history :=
      if 0 < elapsed ∧ tp % 100 = 0 then
        pushBounded 100 ⟨r.timestamp, bps, pps⟩ s.bandwidth_history
      else s.bandwidth_history
    connections := conns
    threat_alerts :=
      if r.threat_level = ThreatLevel.Safe then s.threat_alerts
      else pushBounded 100 (r.timestamp, alertMsg r, r.threat_level) s.threat_alerts
    port_activity :=
      match r.dst_port with
      | some p => bump p s.port_activity
      | none =>
        match r.src_port with
        | some p => bump p s.port_activity
        | none => s.port_activity
    packet_sizes := pushBounded 1000 r.packet_size s.packet_sizes
    current_connections := conns.length
    peak_bandwidth :=
      if 0 < elapsed ∧ tp % 100 = 0 then
        (if s.peak_bandwidth < bps then bps else s.peak_bandwidth)
      else s.peak_bandwidth
    peak_packets_per_sec :=
      if 0 < elapsed ∧ tp % 100 = 0 then
        (if s.peak_packets_per_sec < pps then pps else s.peak_packets_per_sec)
      else s.peak_packets_per_sec }

/-- The variant of `ingest` with every ring-buffer eviction removed
(plain appends): its buffers are the full insertion streams, used to
state what the bounded buffers retain. -/
def ingestU (s : NetworkStats) (r : PacketInfo) (elapsed : Nat) : NetworkStats :=
  let tp := s.total_packets + 1
  let tb := s.total_bytes + r.packet_size
  let conns := connStep r s.connections
  let bps : ℚ := (tb : ℚ) / (elapsed : ℚ)
  let pps : ℚ := (tp : ℚ) / (elapsed : ℚ)
  { total_packets := tp
    total_bytes := tb
    protocol_counts := bump r.protocol s.protocol_counts
    top_talkers :=
      match r.src_ip with
      | some a => bump a s.top_talkers
      | none => s.top_talkers
    bandwidth_history :=
      if 0 < elapsed ∧ tp % 100 = 0 then
        s.bandwidth_history ++ [⟨r.timestamp, bps, pps⟩]
      else s.bandwidth_history
    connections := conns
    threat_alerts :=
      if r.threat_level = ThreatLevel.Safe then s.threat_alerts
      else s.threat_alerts ++ [(r.timestamp, alertMsg r, r.threat_level)]
    port_activity :=
      match r.dst_port with
      | some p => bump p s.port_activity
      | none =>
        match r.src_port with
        | some p => bump p s.port_activity
        | none => s.port_activity
    packet_sizes := s.packet_sizes ++ [r.packet_size]
    current_connections := conns.length
    peak_bandwidth :=
      if 0 < elapsed ∧ tp % 100 = 0 then
        (if s.peak_bandwidth < bps then bps else s.peak_bandwidth)
      else s.peak_bandwidth
    peak_packets_per_sec :=
      if 0 < elapsed ∧ tp % 100 = 0 then
        (if s.peak_packets_per_sec < pps then pps else s.peak_packets_per_sec)
      else s.peak_packets_per_sec }

/-- One captured packet as fed to the aggregator: the record together
with the elapsed-seconds clock reading observed at its ingest. -/
abbrev Arrival := PacketInfo × Nat

/-- Ingest a whole arrival sequence, starting from the empty stats. -/
def runStats (l : List Arrival) : NetworkStats :=
  l.foldl (fun s re => ingest s re.1 re.2) initStats

/-- Unbounded variant of `runStats`. -/
def runStatsU (l : List Arrival) : NetworkStats :=
  l.foldl (fun s re => ingestU s re.1 re.2) initStats

/-- The recent-record buffer (`captured_packets`, `main.rs` lines
486-494): bounded FIFO of the full records, capacity 1000. -/
def runRecent (l : List Arrival) : List PacketInfo :=
  l.foldl (fun b re => pushBounded 1000 re.1 b) []

/-- The last `n` elements of a list, in order. -/
def lastN {α : Type} (n : Nat) (l : List α) : List α :=
  l.drop (l.length - n)

/-- IPv4 next-level protocol as read by `should_capture_packet`. -/
inductive IpProto
  | Tcp
  | Udp
  | Icmp
  | OtherProto (code : Nat)
deriving DecidableEq, Repr

/-- A parsed IPv4 layer as `should_capture_packet` observes it:
the protocol field, and the result of `TcpPacket::new` /
`UdpPacket::new` on the IPv4 payload ((source, destination) ports when
the header parses, `none` when the payload is too short). -/
structure Ipv4Layer where
  proto : IpProto
  tports : Option (Nat × Nat)
  uports : Option (Nat × Nat)
deriving DecidableEq, Repr

/-- A raw frame buffer as `should_capture_packet` dissects it:
`notEth` when `EthernetPacket::new` fails, otherwise the ethertype
(IPv4 is 2048 = 0x0800) and the result of `Ipv4Packet::new` on the
ethernet payload. -/
inductive Frame
  | notEth
  | eth (ethertype : Nat) (ip4 : Option Ipv4Layer)
deriving DecidableEq, Repr

/-- Outcome of the protocol-filter `match` inside
`should_capture_packet` (`main.rs` lines 1403-1427): `inl b` is an
early `return b` (the `http` / `dns` arms), `inr pm` is the computed
`protocol_match` value. -/
def protoFilterStep (fl : String) (p : Ipv4Layer) : Bool ⊕ Bool :=
  if fl = "tcp" then .inr (p.proto = IpProto.Tcp)
  else if fl = "udp" then .inr (p.proto = IpProto.Udp)
  else if fl = "icmp" then .inr (p.proto = IpProto.Icmp)
  else if fl = "http" then
    .inl (match p.proto, p.tports with
          | IpProto.Tcp, some (s, d) =>
            d = 80 ∨ s = 80 ∨ d = 8080 ∨ s = 8080
          | _, _ => False)
  else if fl = "dns" then
    .inl (match p.proto, p.uports with
          | IpProto.Udp, some (s, d) => d = 53 ∨ s = 53
          | _, _ => False)
  else .inr true

/-- The port-filter block of `should_capture_packet` (`main.rs` lines
1435-1449); when no port filter is set execution falls through to the
final `true`.  A TCP/UDP packet whose transport header fails to parse
also falls through to `true`; other protocols `return false`. -/
def portFilterStep (portf : Option Nat) (p : Ipv4Layer) : Bool :=
  match portf with
  | none => true
  | some q =>
    match p.proto with
    | IpProto.Tcp =>
      match p.tports with
      | some (s, d) => s = q ∨ d = q
      | none => true
    | IpProto.Udp =>
      match p.uports with
      | some (s, d) => s = q ∨ d = q
      | none => true
    | _ => false

/-- `should_capture_packet` from `main.rs` lines 1396-1457, over the
dissected frame.  Non-IPv4 ethernet frames return `false`; buffers
that do not parse as ethernet, and IPv4 frames whose IP header does
not parse, fall through to the final `true`. -/
def should_capture_packet (protoFilter : Option String) (portFilter : Option Nat)
    (f : Frame) : Bool :=
  match f with
  | .notEth => true
  | .eth et ip4 =>
    if et = 2048 then
      match ip4 with
      | none => true
      | some p =>
        match protoFilter with
        | none => portFilterStep portFilter p
        | some fl =>
          match protoFilterStep (strToLower fl) p with
          | .inl b => b
          | .inr pm => if pm then portFilterStep portFilter p else false
    else false

/-- Decimal digit character. -/
def digitChar (n : Nat) : Char :=
  match n with
  | 0 => '0' | 1 => '1' | 2 => '2' | 3 => '3' | 4 => '4'
  | 5 => '5' | 6 => '6' | 7 => '7' | 8 => '8' | _ => '9'

/-- Two-digit zero-padded decimal (for values below 100). -/
def pad2 (n : Nat) : List Char := [digitChar (n / 10 % 10), digitChar (n % 10)]

/-- Four-digit zero-padded decimal (for values below 10000). -/
def pad4 (n : Nat) : List Char :=
  [digitChar (n / 1000 % 10), digitChar (n / 100 % 10),
   digitChar (n / 10 % 10), digitChar (n % 10)]

/-- `DateTime::<Utc>::to_rfc3339` (chrono, an external library) on a
whole-second UTC timestamp: `YYYY-MM-DDTHH:MM:SS+00:00`. -/
def toRfc3339 (t : DT) : String :=
  ⟨pad4 t.year ++ ['-'] ++ pad2 t.month ++ ['-'] ++ pad2 t.day ++ ['T'] ++
   pad2 t.hour ++ [':'] ++ pad2 t.minute ++ [':'] ++ pad2 t.second ++
   ['+', '0', '0', ':', '0', '0']⟩

/-- Value of a digit character. -/
def digitVal (c : Char) : Nat := c.toNat - 48

/-- Digit test. -/
def isDigitCh (c : Char) : Bool := 48 ≤ c.toNat && c.toNat ≤ 57

/-- Read exactly `k` decimal digits off the front of a character list,
accumulating their value. -/
def readDigits (k : Nat) (acc : Nat) (l : List Char) : Option (Nat × List Char) :=
  match k, l with
  | 0, l => some (acc, l)
  | k + 1, c :: t =>
    if isDigitCh c then readDigits k (acc * 10 + digitVal c) t else none
  | _ + 1, [] => none

/-- Expect one given character at the front of a character list. -/
def expectCh (c : Char) (l : List Char) : Option (List Char) :=
  match l with
  | c2 :: t => if c2 = c then some t else none
  | [] => none

/-- RFC 3339 parser for the exact fixed-width UTC shape produced by
`toRfc3339`, witnessing that the serialized timestamp is
round-trippable. -/
def parseRfc3339 (str : String) : Option DT :=
  (readDigits 4 0 str.data).bind fun py =>
  (expectCh '-' py.2).bind fun l2 =>
  (readDigits 2 0 l2).bind fun pmo =>
  (expectCh '-' pmo.2).bind fun l4 =>
  (readDigits 2 0 l4).bind fun pd =>
  (expectCh 'T' pd.2).bind fun l6 =>
  (readDigits 2 0 l6).bind fun ph =>
  (expectCh ':' ph.2).bind fun l8 =>
  (readDigits 2 0 l8).bind fun pmi =>
  (expectCh ':' pmi.2).bind fun l10 =>
  (readDigits 2 0 l10).bind fun ps =>
  if ps.2 = ['+', '0', '0', ':', '0', '0'] then
    some { year := py.1, month := pmo.1, day := pd.1, hour := ph.1,
           minute := pmi.1, second := ps.1 }
  else none

/-- The 11-entry header written by `export_to_csv`
(`main.rs` lines 1365-1366). -/
def csvHeader : List String :=
  ["timestamp", "packet_number", "src_ip", "dst_ip", "protocol",
   "src_port", "dst_port", "packet_size", "flags",
   "application_protocol", "description"]

/-- One data record written by `export_to_csv`
(`main.rs` lines 1371-1383): absent optional fields become `""`. -/
def csvRow (p : PacketInfo) : List String :=
  [toRfc3339 p.timestamp,
   toString p.packet_number,
   p.src_ip.getD "",
   p.dst_ip.getD "",
   p.protocol,
   (p.src_port.map toString).getD "",
   (p.dst_port.map toString).getD "",
   toString p.packet_size,
   p.flags.getD "",
   p.application_protocol.getD "",
   p.description]

/-- `export_to_csv` (`main.rs` lines 1360-1394) at the level of the
`csv::Writer::write_record` calls: the header record followed by one
record per packet, in order. -/
def export_to_csv (ps : List PacketInfo) : List (List String) :=
  csvHeader :: ps.map csvRow

/-- The maximum `bytes_per_sec` over the whole history, floored at 1
(`display_bandwidth_graph`, `main.rs` lines 595-598). -/
def graphMaxBytes (h : List BandwidthPoint) : ℚ :=
  max (h.foldr (fun p acc => max p.bytes_per_sec acc) 0) 1

/-- The points the sparkline renders
(`bandwidth_history.iter().rev().take(20).rev()`, `main.rs` line 603). -/
def renderedPoints (h : List BandwidthPoint) : List BandwidthPoint :=
  (h.reverse.take 20).reverse

/-- Bar length of one rendered point (`main.rs` line 604):
`((bytes_per_sec / max_bytes) * 40.0) as usize` (the cast truncates;
the quantities here are nonnegative, so this is the floor). -/
def barLength (maxB : ℚ) (p : BandwidthPoint) : Nat :=
  (Rat.floor (p.bytes_per_sec / maxB * 40)).toNat

/-- The bar lengths `display_bandwidth_graph` draws, in render order. -/
def graphBars (h : List BandwidthPoint) : List Nat :=
  (renderedPoints h).map (barLength (graphMaxBytes h))

/-- Modelled from the spec: bar lengths as claim C9 describes them,
with the maximum taken over the rendered at-most-20-point window
instead of the whole history. -/
def graphBarsWindowClaim (h : List BandwidthPoint) : List Nat :=
  (renderedPoints h).map (barLength (graphMaxBytes (renderedPoints h)))

/-- Split a character list at the dots. -/
def splitDot : List Char → List (List Char)
  | [] => [[]]
  | c :: t =>
    if c = '.' then [] :: splitDot t
    else
      match splitDot t with
      | h :: r => (c :: h) :: r
      | [] => [[c]]

/-- Decimal value of a nonempty all-digit character list. -/
def chToNat? (l : List Char) : Option Nat :=
  if l.all isDigitCh && !l.isEmpty then
    some (l.foldl (fun a c => a * 10 + digitVal c) 0)
  else none

/-- Dotted-quad parser for the spec-side private-range predicate. -/
def parseOctets (s : String) : Option (Nat × Nat × Nat × Nat) :=
  match (splitDot s.data).map chToNat? with
  | [some a, some b, some c, some d] =>
    if a ≤ 255 ∧ b ≤ 255 ∧ c ≤ 255 ∧ d ≤ 255 then some (a, b, c, d) else none
  | _ => none

/-- Modelled from the spec: membership in the private ranges named by
claim C3 — 10.0.0.0/8, 172.16.0.0/12, 192.168.0.0/16, 127.0.0.0/8,
the IPv6 loopback and link-local addresses. -/
def ipInClaimPrivateRanges (s : String) : Bool :=
  match parseOctets s with
  | some (a, b, _, _) =>
    a = 10 || (a = 172 && 16 ≤ b && b ≤ 31) || (a = 192 && b = 168) || a = 127
  | none => s = "::1" || strStartsWith s "fe80:"

/-- The key computation of the connections step (`main.rs` lines
426-430): defined only when both addresses are present. -/
def keyOf (r : PacketInfo) : Option String :=
  match r.src_ip, r.dst_ip with
  | some a, some b => some (connectionKey a b r.src_port r.dst_port)
  | _, _ => none

/-- A fixed timestamp for concrete test records. -/
def dt0 : DT := ⟨2024, 1, 2, 3, 4, 5⟩

/-- Concrete record builder for test inputs. -/
def recWith (src dst : Option String) (proto : String) (sp dp : Option Nat)
    (sz : Nat) : PacketInfo :=
  { timestamp := dt0, packet_number := 1, src_mac := "aa", dst_mac := "bb",
    src_ip := src, dst_ip := dst, protocol := proto, src_port := sp,
    dst_port := dp, packet_size := sz, flags := none, payload_size := 0,
    application_protocol := none, description := "x",
    threat_level := ThreatLevel.Safe, geo_info := none }

/-- TCP record to a public address on destination port 3389, 100 bytes
(claim C2's worked example). -/
def rc2 : PacketInfo := recWith (some "1.2.3.4") (some "8.8.8.8") "TCP" none (some 3389) 100

/-- TCP record to 172.17.0.1 (inside 172.16.0.0/12), 2000 bytes. -/
def rc3 : PacketInfo := recWith (some "1.2.3.4") (some "172.17.0.1") "TCP" none none 2000

/-- TCP record 1.1.1.1:10 → 2.2.2.2:20. -/
def flowA : PacketInfo := recWith (some "1.1.1.1") (some "2.2.2.2") "TCP" (some 10) (some 20) 100

/-- The direction reversal of `flowA`. -/
def flowArev : PacketInfo := recWith (some "2.2.2.2") (some "1.1.1.1") "TCP" (some 20) (some 10) 100

/-- `flowA` with the transport protocol changed to UDP. -/
def flowAudp : PacketInfo := recWith (some "1.1.1.1") (some "2.2.2.2") "UDP" (some 10) (some 20) 100

/-- C2: the threat classifier is a deterministic total function of the
record; the TCP/destination-port-3389/public-address/100-byte record
scores 3 (port) + 1 (public) + 0 (size) + 0 (protocol) = 4 and is
classified Medium; and for every record the score-to-level mapping is
0-1 Safe, 2-3 Low, 4-5 Medium, 6-7 High, >=8 Critical. -/
theorem C2_classifier_deterministic_and_mapping :
    (∀ r1 r2 : PacketInfo, r1 = r2 → detect_threat_level r1 = detect_threat_level r2) ∧
    (portScore rc2 = 3 ∧ addrScore rc2 = 1 ∧ sizeScore rc2 = 0 ∧ protoScore rc2 = 0 ∧
      riskScore rc2 = 4 ∧ detect_threat_level rc2 = ThreatLevel.Medium) ∧
    (∀ r : PacketInfo,
      detect_threat_level r =
        if riskScore r ≤ 1 then ThreatLevel.Safe
        else if riskScore r ≤ 3 then ThreatLevel.Low
        else if riskScore r ≤ 5 then ThreatLevel.Medium
        else if riskScore r ≤ 7 then ThreatLevel.High
        else ThreatLevel.Critical) := by
  refine ⟨fun r1 r2 h => by rw [h], by decide, fun r => rfl⟩

/-- C2 witness: the determinism clause applied at the concrete record. -/
theorem C2_witness : detect_threat_level rc2 = detect_threat_level rc2 :=
  C2_classifier_deterministic_and_mapping.1 rc2 rc2 rfl

/-- C3 as stated is false: 172.17.0.1 lies inside the claimed private
range 172.16.0.0/12, is not one of the "10.0.0."/"169.254." prefixes,
yet the classifier still adds +1 for it (the source's `is_private_ip`
only tests the string prefix "172.16."), so a 2000-byte TCP record to
it scores 2 (Low) where the claim forces 1 (Safe). -/
theorem C3_counterexample :
    ipInClaimPrivateRanges "172.17.0.1" = true ∧
    strStartsWith "172.17.0.1" "10.0.0." = false ∧
    strStartsWith "172.17.0.1" "169.254." = false ∧
    addrScore rc3 = 1 ∧
    sizeScore rc3 = 1 ∧ portScore rc3 = 0 ∧ protoScore rc3 = 0 ∧
    detect_threat_level rc3 = ThreatLevel.Low := by decide

/-- C3 corrected: for a present destination address, +1 is added
exactly when the address fails all of the source's string-prefix tests
"10.", "192.168.", "172.16.", "127.", "::1", "fe80::" (so only
172.16.0.0/16 of the claimed /12 is treated as private, and only the
`fe80::`-spelled link-local addresses), and an additional +2 exactly
when the address begins with "10.0.0." or "169.254.". -/
theorem C3_amended (r : PacketInfo) (ip : String) (h : r.dst_ip = some ip) :
    riskScore r =
      portScore r +
        ((if strStartsWith ip "10." || strStartsWith ip "192.168." ||
             strStartsWith ip "172.16." || strStartsWith ip "127." ||
             strStartsWith ip "::1" || strStartsWith ip "fe80::" then 0 else 1) +
         (if strStartsWith ip "10.0.0." || strStartsWith ip "169.254." then 2 else 0)) +
        sizeScore r + protoScore r := by
  simp only [riskScore, addrScore, h, is_private_ip]

/-- C3 witness: the corrected address signal evaluated at the concrete
record for 172.17.0.1. -/
theorem C3_witness :
    rc3.dst_ip = some "172.17.0.1" ∧
    riskScore rc3 =
      portScore rc3 +
        ((if strStartsWith "172.17.0.1" "10." ||
             strStartsWith "172.17.0.1" "192.168." ||
             strStartsWith "172.17.0.1" "172.16." ||
             strStartsWith "172.17.0.1" "127." ||
             strStartsWith "172.17.0.1" "::1" ||
             strStartsWith "172.17.0.1" "fe80::" then 0 else 1) +
         (if strStartsWith "172.17.0.1" "10.0.0." ||
             strStartsWith "172.17.0.1" "169.254." then 2 else 0)) +
        sizeScore rc3 + protoScore rc3 :=
  ⟨rfl, C3_amended rc3 "172.17.0.1" rfl⟩

/-- C1 as stated is false: the source keys the connections table by the
ORDERED 4-tuple and omits the protocol.  Ingesting 1.1.1.1:10 → 2.2.2.2:20
and its exact direction reversal creates TWO table entries (the claim
requires one), while ingesting the same ordered 4-tuple once as TCP and
once as UDP updates ONE entry (the claim requires two). -/
theorem C1_counterexample :
    (runStats [(flowA, 0), (flowArev, 0)]).connections.length = 2 ∧
    (runStats [(flowA, 0), (flowAudp, 0)]).connections.length = 1 ∧
    flowA.protocol ≠ flowAudp.protocol := by decide

/-- C1 corrected: every entry is keyed by the ordered 4-tuple with
absent ports rendered as 0 and the transport protocol excluded — any
two records with both addresses present agreeing on
(src ip, src port, dst ip, dst port) update the same flow whatever
their protocols, while a direction-reversed record generally updates a
different flow. -/
theorem C1_amended :
    (∀ r1 r2 : PacketInfo, r1.src_ip = r2.src_ip → r1.dst_ip = r2.dst_ip →
      r1.src_port = r2.src_port → r1.dst_port = r2.dst_port →
      keyOf r1 = keyOf r2) ∧
    keyOf flowA ≠ keyOf flowArev ∧
    keyOf flowA = keyOf flowAudp ∧
    (runStats [(flowA, 0), (flowAudp, 0)]).connections.length = 1 := by
  refine ⟨fun r1 r2 h1 h2 h3 h4 => ?_, by decide, by decide, by decide⟩
  simp only [keyOf, connectionKey, h1, h2, h3, h4]

/-- C1 witness: the ordered-4-tuple clause applied at the concrete
TCP/UDP record pair agreeing on the tuple. -/
theorem C1_witness : keyOf flowA = keyOf flowAudp :=
  C1_amended.1 flowA flowAudp rfl rfl rfl rfl

/-- C6: one ingest increments `total_packets` by one, and appends a
bandwidth point (updating both peaks via max) exactly when the elapsed
whole seconds are positive and the post-increment `total_packets` is a
multiple of 100; in particular nothing is sampled when elapsed = 0, so
the divisions by `elapsed` are only performed with a positive divisor. -/
theorem C6_bandwidth_sampling (s : NetworkStats) (r : PacketInfo) (e : Nat) :
    (ingest s r e).total_packets = s.total_packets + 1 ∧
    (ingest s r e).bandwidth_history =
      (if 0 < e ∧ (s.total_packets + 1) % 100 = 0 then
        pushBounded 100
          ⟨r.timestamp, ((s.total_bytes + r.packet_size : Nat) : ℚ) / (e : ℚ),
           ((s.total_packets + 1 : Nat) : ℚ) / (e : ℚ)⟩
          s.bandwidth_history
      else s.bandwidth_history) ∧
    (ingest s r e).peak_bandwidth =
      (if 0 < e ∧ (s.total_packets + 1) % 100 = 0 then
        max s.peak_bandwidth (((s.total_bytes + r.packet_size : Nat) : ℚ) / (e : ℚ))
      else s.peak_bandwidth) ∧
    (ingest s r e).peak_packets_per_sec =
      (if 0 < e ∧ (s.total_packets + 1) % 100 = 0 then
        max s.peak_packets_per_sec (((s.total_packets + 1 : Nat) : ℚ) / (e : ℚ))
      else s.peak_packets_per_sec) ∧
    (e = 0 →
      (ingest s r e).bandwidth_history = s.bandwidth_history ∧
      (ingest s r e).peak_bandwidth = s.peak_bandwidth ∧
      (ingest s r e).peak_packets_per_sec = s.peak_packets_per_sec) := by
  have hb : ∀ a b : ℚ, (if a < b then b else a) = max a b := by
    intro a b
    by_cases h : a < b
    · simp [h, max_eq_right h.le]
    · simp [h, max_eq_left (not_lt.1 h)]
  refine ⟨rfl, rfl, ?_, ?_, fun he => ?_⟩
  · show (if 0 < e ∧ (s.total_packets + 1) % 100 = 0 then
        (if s.peak_bandwidth < _ then _ else s.peak_bandwidth)
      else s.peak_bandwidth) = _
    split
    · exact hb _ _
    · rfl
  · show (if 0 < e ∧ (s.total_packets + 1) % 100 = 0 then
        (if s.peak_packets_per_sec < _ then _ else s.peak_packets_per_sec)
      else s.peak_packets_per_sec) = _
    split
    · exact hb _ _
    · rfl
  · subst he
    refine ⟨?_, ?_, ?_⟩ <;> simp [ingest]

/-- C6 witness: ingesting at elapsed = 0 leaves the bandwidth history
untouched. -/
theorem C6_witness :
    (ingest initStats rc2 0).bandwidth_history = initStats.bandwidth_history :=
  ((C6_bandwidth_sampling initStats rc2 0).2.2.2.2 rfl).1

/-- C10: with no protocol filter and no port filter,
`should_capture_packet` rejects every frame that parses as ethernet
with a non-IPv4 ethertype, and accepts every buffer that does not
parse as an ethernet frame at all. -/
theorem C10_non_ipv4_dropped :
    (∀ (et : Nat) (ip4 : Option Ipv4Layer), et ≠ 2048 →
      should_capture_packet none none (Frame.eth et ip4) = false) ∧
    should_capture_packet none none Frame.notEth = true := by
  refine ⟨fun et ip4 h => ?_, rfl⟩
  simp [should_capture_packet, h]

/-- C10 witness: an ARP frame (ethertype 2054) is dropped. -/
theorem C10_witness :
    (2054 : Nat) ≠ 2048 ∧
    should_capture_packet none none (Frame.eth 2054 none) = false :=
  ⟨by decide, C10_non_ipv4_dropped.1 2054 none (by decide)⟩

/-- C7: on parsed IPv4 packets, the "http" filter accepts exactly TCP
packets with 80 or 8080 as source or destination port, the "dns"
filter accepts exactly UDP packets with 53 as source or destination
port, and any unrecognized filter value accepts every packet. -/
theorem C7_http_dns_filters (p : Ipv4Layer) :
    (should_capture_packet (some "http") none (Frame.eth 2048 (some p)) = true ↔
      p.proto = IpProto.Tcp ∧ ∃ sp dp, p.tports = some (sp, dp) ∧
        (dp = 80 ∨ sp = 80 ∨ dp = 8080 ∨ sp = 8080)) ∧
    (should_capture_packet (some "dns") none (Frame.eth 2048 (some p)) = true ↔
      p.proto = IpProto.Udp ∧ ∃ sp dp, p.uports = some (sp, dp) ∧
        (dp = 53 ∨ sp = 53)) ∧
    (∀ fl : String, strToLower fl ≠ "tcp" → strToLower fl ≠ "udp" →
      strToLower fl ≠ "icmp" → strToLower fl ≠ "http" → strToLower fl ≠ "dns" →
      should_capture_packet (some fl) none (Frame.eth 2048 (some p)) = true) := by
  obtain ⟨pr, tp, up⟩ := p
  have hhttp : strToLower "http" = "http" := by decide
  have hdns : strToLower "dns" = "dns" := by decide
  refine ⟨?_, ?_, fun fl h1 h2 h3 h4 h5 => ?_⟩
  · cases pr <;> rcases tp with _ | ⟨sp, dp⟩ <;>
      simp [should_capture_packet, protoFilterStep, hhttp] <;> aesop
  · cases pr <;> rcases up with _ | ⟨sp, dp⟩ <;>
      simp [should_capture_packet, protoFilterStep, hdns] <;> aesop
  · simp [should_capture_packet, protoFilterStep, h1, h2, h3, h4, h5, portFilterStep]

/-- C7 witness: the unrecognized filter value "zzz" passes an ICMP
packet through. -/
theorem C7_witness :
    strToLower "zzz" ≠ "http" ∧
    should_capture_packet (some "zzz") none
      (Frame.eth 2048 (some ⟨IpProto.Icmp, none, none⟩)) = true :=
  ⟨by decide,
   (C7_http_dns_filters ⟨IpProto.Icmp, none, none⟩).2.2 "zzz" (by decide)
     (by decide) (by decide) (by decide) (by decide)⟩

/-- A 100-bytes-per-second bandwidth point. -/
def ptHigh : BandwidthPoint := ⟨dt0, 100, 1⟩

/-- A 50-bytes-per-second bandwidth point. -/
def ptLow : BandwidthPoint := ⟨dt0, 50, 1⟩

/-- A 21-point history whose maximum lies outside the rendered
20-point window. -/
def histC9 : List BandwidthPoint := ptHigh :: List.replicate 20 ptLow

set_option maxRecDepth 4000 in
/-- C9 as stated is false: the sparkline's scaling maximum is taken
over the WHOLE `bandwidth_history`, not over the rendered window.  On
a 21-point history starting with a 100 B/s point followed by twenty
50 B/s points, every rendered bar has length 20 (scaled by the global
maximum 100), while scaling by the window maximum 50 — what the claim
requires — would give 40. -/
theorem C9_counterexample :
    (renderedPoints histC9).length = 20 ∧
    (graphBars histC9).head? = some 20 ∧
    (graphBarsWindowClaim histC9).head? = some 40 := by
  have hren : renderedPoints histC9 = List.replicate 20 ptLow := by decide
  have hmax : graphMaxBytes histC9 = 100 := by decide
  have hmaxw : graphMaxBytes (List.replicate 20 ptLow) = 50 := by decide
  have hbar100 : barLength 100 ptLow = 20 := by
    have h : (50 : ℚ) / 100 * 40 = 20 := by norm_num
    simp only [barLength, ptLow, h]
    decide
  have hbar50 : barLength 50 ptLow = 40 := by
    have h : (50 : ℚ) / 50 * 40 = 40 := by norm_num
    simp only [barLength, ptLow, h]
    decide
  refine ⟨by rw [hren]; decide, ?_, ?_⟩
  · unfold graphBars
    rw [hren, hmax, show List.replicate 20 ptLow = ptLow :: List.replicate 19 ptLow from rfl]
    simp [hbar100]
  · unfold graphBarsWindowClaim
    rw [hren, hmaxw, show List.replicate 20 ptLow = ptLow :: List.replicate 19 ptLow from rfl]
    simp [hbar50]

/-- C9 corrected: only the last at-most-20 bandwidth points are
rendered, and each bar's length is the truncation of
40 · bytes_per_sec / M where M is the maximum bytes_per_sec over the
ENTIRE bandwidth history (floored at 1), not over the rendered
window. -/
theorem C9_amended (h : List BandwidthPoint) :
    renderedPoints h = lastN 20 h ∧
    (renderedPoints h).length ≤ 20 ∧
    graphBars h =
      (lastN 20 h).map
        (fun p => (Rat.floor (p.bytes_per_sec / graphMaxBytes h * 40)).toNat) := by
  have key : renderedPoints h = lastN 20 h := by
    show (h.reverse.take 20).reverse = _
    rw [← List.rtake_eq_reverse_take_reverse]
    rfl
  refine ⟨key, ?_, ?_⟩
  · rw [key]
    simp only [lastN, List.length_drop]
    omega
  · unfold graphBars
    rw [key]
    rfl

/-- Every digit character produced by `digitChar` passes the digit
test. -/
theorem isDigitCh_digitChar (n : Nat) : isDigitCh (digitChar n) = true := by
  unfold digitChar
  split <;> decide

/-- Reading back a digit character below 10 returns its value. -/
theorem digitVal_digitChar (n : Nat) (h : n < 10) : digitVal (digitChar n) = n := by
  interval_cases n <;> decide

/-- Two zero-padded digits parse back to the original value below 100. -/
theorem readDigits_pad2 (n : Nat) (h : n < 100) (rest : List Char) :
    readDigits 2 0 (pad2 n ++ rest) = some (n, rest) := by
  have h1 : n / 10 % 10 < 10 := Nat.mod_lt _ (by norm_num)
  have h2 : n % 10 < 10 := Nat.mod_lt _ (by norm_num)
  simp [pad2, readDigits, isDigitCh_digitChar,
        digitVal_digitChar _ h1, digitVal_digitChar _ h2]
  omega

/-- Four zero-padded digits parse back to the original value below
10000. -/
theorem readDigits_pad4 (n : Nat) (h : n < 10000) (rest : List Char) :
    readDigits 4 0 (pad4 n ++ rest) = some (n, rest) := by
  have h1 : n / 1000 % 10 < 10 := Nat.mod_lt _ (by norm_num)
  have h2 : n / 100 % 10 < 10 := Nat.mod_lt _ (by norm_num)
  have h3 : n / 10 % 10 < 10 := Nat.mod_lt _ (by norm_num)
  have h4 : n % 10 < 10 := Nat.mod_lt _ (by norm_num)
  simp [pad4, readDigits, isDigitCh_digitChar, digitVal_digitChar _ h1,
        digitVal_digitChar _ h2, digitVal_digitChar _ h3, digitVal_digitChar _ h4]
  omega

/-- The expected separator character is consumed. -/
theorem expectCh_cons (c : Char) (t : List Char) : expectCh c (c :: t) = some t := by
  simp [expectCh]

/-- The serialized timestamp parses back to the original civil
date-time (for in-range field values). -/
theorem rfc3339_roundtrip (t : DT) (hy : t.year < 10000) (hmo : t.month < 100)
    (hd : t.day < 100) (hh : t.hour < 100) (hmi : t.minute < 100)
    (hs : t.second < 100) : parseRfc3339 (toRfc3339 t) = some t := by
  obtain ⟨y, mo, d, h, mi, s⟩ := t
  simp only at hy hmo hd hh hmi hs
  unfold toRfc3339 parseRfc3339
  simp only [List.append_assoc, List.cons_append, List.singleton_append,
             List.nil_append]
  rw [readDigits_pad4 _ hy]
  simp only [Option.some_bind]
  rw [expectCh_cons]
  simp only [Option.some_bind]
  rw [readDigits_pad2 _ hmo]
  simp only [Option.some_bind]
  rw [expectCh_cons]
  simp only [Option.some_bind]
  rw [readDigits_pad2 _ hd]
  simp only [Option.some_bind]
  rw [expectCh_cons]
  simp only [Option.some_bind]
  rw [readDigits_pad2 _ hh]
  simp only [Option.some_bind]
  rw [expectCh_cons]
  simp only [Option.some_bind]
  rw [readDigits_pad2 _ hmi]
  simp only [Option.some_bind]
  rw [expectCh_cons]
  simp only [Option.some_bind]
  rw [readDigits_pad2 _ hs]
  simp only [Option.some_bind]
  rfl

/-- C8: CSV export writes the 11-column header plus exactly one row
per record in order, each row with exactly the 11 fields in the fixed
order, absent optional fields serialized as the empty string, and the
timestamp in the fixed-width RFC 3339 UTC form, which parses back to
the original timestamp. -/
theorem C8_csv_export (ps : List PacketInfo) :
    (export_to_csv ps).length = ps.length + 1 ∧
    (export_to_csv ps).head? = some csvHeader ∧
    csvHeader =
      ["timestamp", "packet_number", "src_ip", "dst_ip", "protocol",
       "src_port", "dst_port", "packet_size", "flags",
       "application_protocol", "description"] ∧
    (∀ row ∈ export_to_csv ps, row.length = 11) ∧
    (∀ i : Nat, (export_to_csv ps).get? (i + 1) = (ps.get? i).map csvRow) ∧
    (∀ p : PacketInfo, p.src_ip = none → p.dst_ip = none → p.src_port = none →
      p.dst_port = none → p.flags = none → p.application_protocol = none →
      csvRow p = [toRfc3339 p.timestamp, toString p.packet_number, "", "",
                  p.protocol, "", "", toString p.packet_size, "", "",
                  p.description]) ∧
    (∀ t : DT, t.year < 10000 → t.month < 100 → t.day < 100 → t.hour < 100 →
      t.minute < 100 → t.second < 100 → parseRfc3339 (toRfc3339 t) = some t) := by
  refine ⟨by simp [export_to_csv], rfl, rfl, ?_, ?_, ?_,
          fun t hy hmo hd hh hmi hs => rfc3339_roundtrip t hy hmo hd hh hmi hs⟩
  · intro row hrow
    simp only [export_to_csv, List.mem_cons, List.mem_map] at hrow
    rcases hrow with rfl | ⟨p, _, rfl⟩
    · rfl
    · rfl
  · intro i
    simp [export_to_csv, List.get?_map]
  · intro p h1 h2 h3 h4 h5 h6
    simp [csvRow, h1, h2, h3, h4, h5, h6]

/-- C8 witness: the shape and round-trip clauses applied at a concrete
record list and timestamp. -/
theorem C8_witness :
    dt0.year < 10000 ∧
    (export_to_csv [rc2]).length = 2 ∧
    parseRfc3339 (toRfc3339 dt0) = some dt0 :=
  ⟨by decide, (C8_csv_export [rc2]).1,
   (C8_csv_export [rc2]).2.2.2.2.2.2 dt0 (by decide) (by decide) (by decide)
     (by decide) (by decide) (by decide)⟩

/-- The threat level recorded for key `k` (Safe when the key is
absent). -/
def connLevel (s : NetworkStats) (k : String) : ThreatLevel :=
  match alistGet k s.connections with
  | some f => f.threat_level
  | none => ThreatLevel.Safe

/-- The threat levels of the arrivals mapped to connection key `k`,
in arrival order. -/
def mappedLevels (k : String) (l : List Arrival) : List ThreatLevel :=
  l.filterMap fun re =>
    if keyOf re.1 = some k then some re.1.threat_level else none

/-- Safe is the bottom of the threat order. -/
theorem tmax_safe_left (x : ThreatLevel) : ThreatLevel.tmax ThreatLevel.Safe x = x := by
  cases x <;> rfl

/-- The threat maximum is idempotent. -/
theorem tmax_self (x : ThreatLevel) : ThreatLevel.tmax x x = x := by
  cases x <;> rfl

/-- Looking up the upserted key returns the touched flow. -/
theorem alistGet_upsertConn_self (a b : String) (r : PacketInfo)
    (c : List (String × ConnectionFlow)) :
    alistGet (connectionKey a b r.src_port r.dst_port) (upsertConn a b r c) =
      some (touchFlow r
        ((alistGet (connectionKey a b r.src_port r.dst_port) c).getD (initFlow a b r))) := by
  induction c with
  | nil => simp [upsertConn, alistGet]
  | cons hd tl ih =>
    obtain ⟨k2, v⟩ := hd
    by_cases hk : k2 = connectionKey a b r.src_port r.dst_port
    · simp [upsertConn, alistGet, hk]
    · simp [upsertConn, alistGet, hk, ih]

/-- Upserting one key leaves every other key unchanged. -/
theorem alistGet_upsertConn_other (a b : String) (r : PacketInfo) (k : String)
    (hk : k ≠ connectionKey a b r.src_port r.dst_port)
    (c : List (String × ConnectionFlow)) :
    alistGet k (upsertConn a b r c) = alistGet k c := by
  induction c with
  | nil => simp [upsertConn, alistGet, Ne.symm hk]
  | cons hd tl ih =>
    obtain ⟨k2, v⟩ := hd
    by_cases hk2 : k2 = connectionKey a b r.src_port r.dst_port
    · subst hk2
      simp [upsertConn, alistGet, Ne.symm hk]
    · simp [upsertConn, alistGet, hk2, ih]

/-- One ingest raises the recorded level of the record's own key to
the maximum with the record's level and touches no other key. -/
theorem connLevel_ingest (s : NetworkStats) (r : PacketInfo) (e : Nat) (k : String) :
    connLevel (ingest s r e) k =
      if keyOf r = some k then (connLevel s k).tmax r.threat_level
      else connLevel s k := by
  have hc : (ingest s r e).connections = connStep r s.connections := rfl
  unfold connLevel
  rw [hc]
  unfold connStep keyOf
  rcases hsrc : r.src_ip with _ | a <;> rcases hdst : r.dst_ip with _ | b
  · simp
  · simp
  · simp
  · by_cases hk : connectionKey a b r.src_port r.dst_port = k
    · subst hk
      rw [alistGet_upsertConn_self]
      simp only [if_pos rfl]
      rcases hget : alistGet (connectionKey a b r.src_port r.dst_port) s.connections with _ | f
      · simp [touchFlow, initFlow, tmax_safe_left, tmax_self]
      · simp [touchFlow]
    · rw [alistGet_upsertConn_other a b r k (fun h => hk h.symm)]
      simp [hk]

/-- Over a whole arrival sequence, the recorded level of a key is the
fold of the threat maximum over the levels mapped to it. -/
theorem connLevel_foldl (l : List Arrival) (s : NetworkStats) (k : String) :
    connLevel (l.foldl (fun st re => ingest st re.1 re.2) s) k =
      List.foldl ThreatLevel.tmax (connLevel s k) (mappedLevels k l) := by
  induction l generalizing s with
  | nil => rfl
  | cons re t ih =>
    rw [List.foldl_cons, ih, connLevel_ingest]
    unfold mappedLevels
    rw [List.filterMap_cons]
    by_cases hkey : keyOf re.1 = some k
    · rw [if_pos hkey, if_pos hkey]
      rfl
    · rw [if_neg hkey, if_neg hkey]

/-- C4: for every key and every ingest sequence from the empty state,
the stored flow's threat_level is the maximum (fold of `tmax` from
Safe) of the levels of all records mapped to that key — so Safe, High,
Safe on one key leaves High — and across one further ingest
packet_count and total_bytes never decrease while last_seen only
advances provided the new record's timestamp is not older. -/
theorem C4_flow_invariants :
    (∀ (l : List Arrival) (k : String) (f : ConnectionFlow),
      alistGet k (runStats l).connections = some f →
      f.threat_level =
        List.foldl ThreatLevel.tmax ThreatLevel.Safe (mappedLevels k l)) ∧
    (∀ (s : NetworkStats) (r : PacketInfo) (e : Nat) (k : String)
        (f f2 : ConnectionFlow),
      alistGet k s.connections = some f →
      alistGet k (ingest s r e).connections = some f2 →
      f.packet_count ≤ f2.packet_count ∧ f.total_bytes ≤ f2.total_bytes ∧
      (f.last_seen.key ≤ r.timestamp.key → f.last_seen.key ≤ f2.last_seen.key)) := by
  constructor
  · intro l k f hget
    have hr : connLevel (runStats l) k = f.threat_level := by
      unfold connLevel
      rw [hget]
    calc f.threat_level = connLevel (runStats l) k := hr.symm
      _ = List.foldl ThreatLevel.tmax (connLevel initStats k) (mappedLevels k l) :=
        connLevel_foldl l initStats k
      _ = List.foldl ThreatLevel.tmax ThreatLevel.Safe (mappedLevels k l) := rfl
  · intro s r e k f f2 hf hf2
    have hc : (ingest s r e).connections = connStep r s.connections := rfl
    rw [hc] at hf2
    unfold connStep at hf2
    have same : ∀ hsame : alistGet k s.connections = some f2,
        f.packet_count ≤ f2.packet_count ∧ f.total_bytes ≤ f2.total_bytes ∧
        (f.last_seen.key ≤ r.timestamp.key → f.last_seen.key ≤ f2.last_seen.key) := by
      intro hsame
      rw [hf] at hsame
      obtain rfl : f = f2 := Option.some.inj hsame
      exact ⟨le_refl _, le_refl _, fun _ => le_refl _⟩
    rcases hsrc : r.src_ip with _ | a <;> rcases hdst : r.dst_ip with _ | b <;>
        simp only [hsrc, hdst] at hf2
    · exact same hf2
    · exact same hf2
    · exact same hf2
    · by_cases hk : k = connectionKey a b r.src_port r.dst_port
      · subst hk
        rw [alistGet_upsertConn_self, hf] at hf2
        obtain rfl : touchFlow r f = f2 := Option.some.inj hf2
        refine ⟨Nat.le_succ _, Nat.le_add_right _ _, fun hh => hh⟩
      · rw [alistGet_upsertConn_other a b r k hk] at hf2
        exact same hf2

/-- C4 witness: the flow-maximum clause applied at the singleton
ingest of `flowA`. -/
theorem C4_witness :
    (touchFlow flowA (initFlow "1.1.1.1" "2.2.2.2" flowA)).threat_level =
      List.foldl ThreatLevel.tmax ThreatLevel.Safe
        (mappedLevels (connectionKey "1.1.1.1" "2.2.2.2" (some 10) (some 20))
          [(flowA, 0)]) :=
  C4_flow_invariants.1 [(flowA, 0)]
    (connectionKey "1.1.1.1" "2.2.2.2" (some 10) (some 20))
    (touchFlow flowA (initFlow "1.1.1.1" "2.2.2.2" flowA)) (by decide)

/-- A last-n window never exceeds n elements. -/
theorem lastN_length_le {α : Type} (n : Nat) (l : List α) : (lastN n l).length ≤ n := by
  simp only [lastN, List.length_drop]
  omega

/-- The push-then-evict-one step maintains the bounded buffer as the
last-cap window of the full insertion stream. -/
theorem pushBounded_lastN {α : Type} (cap : Nat) (hcap : 1 ≤ cap) (x : α) (l : List α) :
    pushBounded cap x (lastN cap l) = lastN cap (l ++ [x]) := by
  unfold pushBounded lastN
  simp only [List.length_append, List.length_drop, List.length_singleton]
  by_cases h : l.length < cap
  · have h0 : l.length - cap = 0 := by omega
    rw [h0]
    simp only [List.drop_zero]
    rw [if_neg (by omega)]
    have h1 : l.length + 1 - cap = 0 := by omega
    rw [h1, List.drop_zero]
  · rw [if_pos (by omega)]
    rw [List.drop_append_eq_append_drop, List.drop_append_eq_append_drop]
    simp only [List.length_drop, List.drop_drop]
    have e1 : 1 - (l.length - (l.length - cap)) = 0 := by omega
    have e2 : l.length - cap + 1 = l.length + 1 - cap := by omega
    have e3 : l.length + 1 - cap - l.length = 0 := by omega
    rw [e1, e2, e3]

/-- Relation between the bounded run and the eviction-free run: all
scalar fields and maps coincide, and each bounded buffer is the
last-cap window of the unbounded one. -/
def Agrees (s su : NetworkStats) : Prop :=
  s.total_packets = su.total_packets ∧
  s.total_bytes = su.total_bytes ∧
  s.protocol_counts = su.protocol_counts ∧
  s.top_talkers = su.top_talkers ∧
  s.connections = su.connections ∧
  s.port_activity = su.port_activity ∧
  s.current_connections = su.current_connections ∧
  s.peak_bandwidth = su.peak_bandwidth ∧
  s.peak_packets_per_sec = su.peak_packets_per_sec ∧
  s.packet_sizes = lastN 1000 su.packet_sizes ∧
  s.bandwidth_history = lastN 100 su.bandwidth_history ∧
  s.threat_alerts = lastN 100 su.threat_alerts

/-- One ingest step preserves the bounded/unbounded agreement. -/
theorem Agrees_ingest (s su : NetworkStats) (r : PacketInfo) (e : Nat)
    (hA : Agrees s su) : Agrees (ingest s r e) (ingestU su r e) := by
  obtain ⟨h1, h2, h3, h4, h5, h6, h7, h8, h9, hps, hbh, hta⟩ := hA
  unfold Agrees
  refine ⟨?_, ?_, ?_, ?_, ?_, ?_, ?_, ?_, ?_, ?_, ?_, ?_⟩ <;>
      simp only [ingest, ingestU]
  · rw [h1]
  · rw [h2]
  · rw [h3]
  · rw [h4]
  · rw [h5]
  · rw [h6]
  · rw [h5]
  · rw [h1, h2, h8]
  · rw [h1, h9]
  · rw [hps]
    exact pushBounded_lastN 1000 (by omega) _ _
  · rw [h1, h2, hbh]
    by_cases hcond : 0 < e ∧ (su.total_packets + 1) % 100 = 0
    · rw [if_pos hcond, if_pos hcond]
      exact pushBounded_lastN 100 (by omega) _ _
    · rw [if_neg hcond, if_neg hcond]
  · rw [hta]
    by_cases hlvl : r.threat_level = ThreatLevel.Safe
    · rw [if_pos hlvl, if_pos hlvl]
    · rw [if_neg hlvl, if_neg hlvl]
      exact pushBounded_lastN 100 (by omega) _ _

/-- The empty state agrees with itself. -/
theorem Agrees_init : Agrees initStats initStats :=
  ⟨rfl, rfl, rfl, rfl, rfl, rfl, rfl, rfl, rfl, rfl, rfl, rfl⟩

/-- Agreement is preserved over any arrival sequence. -/
theorem Agrees_foldl (l : List Arrival) (s su : NetworkStats) (hA : Agrees s su) :
    Agrees (l.foldl (fun st re => ingest st re.1 re.2) s)
      (l.foldl (fun st re => ingestU st re.1 re.2) su) := by
  induction l generalizing s su with
  | nil => exact hA
  | cons re t ih => exact ih _ _ (Agrees_ingest _ _ _ _ hA)

/-- Without eviction, `packet_sizes` is exactly the stream of ingested
sizes in order. -/
theorem runU_packet_sizes (l : List Arrival) (s : NetworkStats) :
    (l.foldl (fun st re => ingestU st re.1 re.2) s).packet_sizes =
      s.packet_sizes ++ l.map (fun re => re.1.packet_size) := by
  induction l generalizing s with
  | nil => simp
  | cons re t ih =>
    rw [List.foldl_cons, ih]
    simp [ingestU, List.append_assoc]

/-- Without eviction, `threat_alerts` is exactly the stream of alerts
of the non-Safe records in order. -/
theorem runU_threat_alerts (l : List Arrival) (s : NetworkStats) :
    (l.foldl (fun st re => ingestU st re.1 re.2) s).threat_alerts =
      s.threat_alerts ++ l.filterMap (fun re =>
        if re.1.threat_level = ThreatLevel.Safe then none
        else some (re.1.timestamp, alertMsg re.1, re.1.threat_level)) := by
  induction l generalizing s with
  | nil => simp
  | cons re t ih =>
    rw [List.foldl_cons, ih, List.filterMap_cons]
    by_cases hlvl : re.1.threat_level = ThreatLevel.Safe
    · rw [if_pos hlvl]
      simp [ingestU, hlvl]
    · rw [if_neg hlvl]
      simp [ingestU, hlvl, List.append_assoc]

/-- The recent-record buffer is the last-1000 window of the captured
records. -/
theorem runRecent_lastN (l : List Arrival) (b ys : List PacketInfo)
    (hb : b = lastN 1000 ys) :
    l.foldl (fun bb re => pushBounded 1000 re.1 bb) b =
      lastN 1000 (ys ++ l.map Prod.fst) := by
  induction l generalizing b ys with
  | nil => simpa using hb
  | cons re t ih =>
    rw [List.foldl_cons]
    have hstep : pushBounded 1000 re.1 b = lastN 1000 (ys ++ [re.1]) := by
      rw [hb]
      exact pushBounded_lastN 1000 (by omega) _ _
    rw [ih _ _ hstep]
    simp [List.append_assoc]

/-- C5: after any ingest sequence the four ring buffers hold exactly
the most recently inserted elements of their insertion streams, in
insertion order with the oldest evicted first, and their lengths never
exceed 1000, 100, 100 and 1000 respectively. -/
theorem C5_ring_buffers (l : List Arrival) :
    (runStats l).packet_sizes = lastN 1000 (l.map fun re => re.1.packet_size) ∧
    (runStats l).threat_alerts =
      lastN 100 (l.filterMap fun re =>
        if re.1.threat_level = ThreatLevel.Safe then none
        else some (re.1.timestamp, alertMsg re.1, re.1.threat_level)) ∧
    (runStats l).bandwidth_history = lastN 100 ((runStatsU l).bandwidth_history) ∧
    runRecent l = lastN 1000 (l.map Prod.fst) ∧
    (runStats l).packet_sizes.length ≤ 1000 ∧
    (runStats l).threat_alerts.length ≤ 100 ∧
    (runStats l).bandwidth_history.length ≤ 100 ∧
    (runRecent l).length ≤ 1000 := by
  obtain ⟨h1, h2, h3, h4, h5, h6, h7, h8, h9, hps, hbh, hta⟩ :=
    Agrees_foldl l initStats initStats Agrees_init
  have hpsU := runU_packet_sizes l initStats
  have htaU := runU_threat_alerts l initStats
  rw [show initStats.packet_sizes = [] from rfl, List.nil_append] at hpsU
  rw [show initStats.threat_alerts = [] from rfl, List.nil_append] at htaU
  have hrec := runRecent_lastN l [] [] rfl
  rw [List.nil_append] at hrec
  have gps : (runStats l).packet_sizes = lastN 1000 (l.map fun re => re.1.packet_size) := by
    rw [show (runStats l).packet_sizes =
        lastN 1000 ((runStatsU l).packet_sizes) from hps]
    rw [show (runStatsU l).packet_sizes = l.map (fun re => re.1.packet_size) from hpsU]
  have gta : (runStats l).threat_alerts =
      lastN 100 (l.filterMap fun re =>
        if re.1.threat_level = ThreatLevel.Safe then none
        else some (re.1.timestamp, alertMsg re.1, re.1.threat_level)) := by
    rw [show (runStats l).threat_alerts =
        lastN 100 ((runStatsU l).threat_alerts) from hta]
    rw [show (runStatsU l).threat_alerts = _ from htaU]
  have grec : runRecent l = lastN 1000 (l.map Prod.fst) := hrec
  refine ⟨gps, gta, hbh, grec, ?_, ?_, ?_, ?_⟩
  · rw [gps]
    exact lastN_length_le _ _
  · rw [gta]
    exact lastN_length_le _ _
  · rw [show (runStats l).bandwidth_history =
        lastN 100 ((runStatsU l).bandwidth_history) from hbh]
    exact lastN_length_le _ _
  · rw [grec]
    exact lastN_length_le _ _
